import Mathlib

/-!
Shallow embedding of `src/src/main.c` (nRF9151 Sateliot NTN firmware v3.2).

Conventions of the embedding:
* C `int64_t` times and millisecond durations are `Int`; C integer division
  and modulus (which truncate toward zero) are `Int.tdiv` / `Int.tmod`.
* `double` latitude arithmetic (`lat_factor`) is modelled over `ℚ`; the C cast
  `(int64_t)(x)` of the nonnegative product is `Int.floor`.
* `rand()` results are external inputs, passed in as `Nat` arguments exactly
  where the C code reads them.
* Functions that in C return an `int` status and write through an out pointer
  are modelled as returning the status together with the written value.
* Asynchronous collaborator outcomes (semaphore waits, AT-command results,
  socket operations, `snprintf`) are inputs gathered in an `Env` record; the
  blocking operations a loop iteration performs are reported as a trace of
  `ExtAction`s, each carrying its worst-case blocking bound in milliseconds.
-/

namespace NtnFw

/-! ## Configuration constants (lines 48-57 of main.c) -/

def MAX_END_TO_END_DELAY_MS : Int := 26 * 60 * 60 * 1000

def MIN_SATELLITE_PASS_DURATION_MS : Int := 30 * 1000

def MAX_SATELLITE_PASS_DURATION_MS : Int := 8 * 60 * 1000

def TLE_UPDATE_INTERVAL_HOURS : Int := 24

def MAX_ERROR_RECOVERY_ATTEMPTS : Int := 3

def MIN_BUFFER_SIZE_TELEMETRY : Nat := 128

def TELEMETRY_SAFETY_MARGIN : Nat := 32

def PAYLOAD_BUFFER_SIZE : Nat := 256

/-- `wdt_config.window.max` from `setup_watchdog` (line 299): 60 seconds. -/
def watchdogWindowMaxMs : Int := 60000

/-! ## errno codes used by the firmware (Zephyr/newlib values) -/

def EINVAL : Int := 22

def ENODATA : Int := 61

def ENOMEM : Int := 12

def EFAULT : Int := 14

def EIO_code : Int := 5

/-! ## Enumerations and structures (lines 64-126) -/

/-- `enum app_state` (lines 64-74). -/
inductive AppState
  | init
  | gettingGpsFix
  | idle
  | attachStep1
  | attachStep2
  | sendingData
  | error
  | recovery
  | tleUpdate
deriving DecidableEq, Repr

/-- `enum attachment_step` (lines 77-81). -/
inductive AttachmentStep
  | step1
  | step2
  | complete
deriving DecidableEq, Repr

/-- `struct satellite_pass` (lines 92-98). -/
structure SatellitePass where
  start_time : Int
  end_time : Int
  max_elevation : Int
  satellite_id : Int
  is_predicted : Bool
deriving DecidableEq, Repr

/-- `struct tle_update_config` (lines 101-106). -/
structure TleUpdateConfig where
  last_update_time : Int
  update_interval_hours : Int
  update_needed : Bool
  consecutive_failures : Int
deriving DecidableEq, Repr

/-- `struct error_recovery_state` (lines 109-114). -/
structure ErrorRecoveryState where
  recovery_attempts : Int
  last_recovery_time : Int
  last_good_state : AppState
  modem_reset_needed : Bool
deriving DecidableEq, Repr

/-- The `valid` flags of `config.satellites[0..3]` (the SIC-4 constellation). -/
structure SatValidity where
  s0 : Bool
  s1 : Bool
  s2 : Bool
  s3 : Bool
deriving DecidableEq, Repr

/-! ## initialize_sateliot_config (lines 338-377): the fields the claims use -/

/-- TLE bookkeeping state written by `initialize_sateliot_config`
(lines 350-353). -/
def init_tle_config : TleUpdateConfig :=
  { last_update_time := 0
    update_interval_hours := TLE_UPDATE_INTERVAL_HOURS
    update_needed := true
    consecutive_failures := 0 }

/-- Recovery state written by `initialize_sateliot_config` (lines 355-358). -/
def init_recovery_state : ErrorRecoveryState :=
  { recovery_attempts := 0
    last_recovery_time := 0
    last_good_state := AppState.idle
    modem_reset_needed := false }

/-- Satellite validity written by `initialize_sateliot_config`
(lines 362-373): slot 0 valid, slots 1-3 invalid. -/
def init_sats : SatValidity :=
  { s0 := true, s1 := false, s2 := false, s3 := false }

/-! ## validate_buffer_safety (lines 185-192) -/

def validate_buffer_safety (buffer_size required_size : Nat) : Bool :=
  if buffer_size < required_size + TELEMETRY_SAFETY_MARGIN then false else true

/-! ## attempt_error_recovery (lines 195-238)

The function increments the counter, takes the capped branch when the counter
exceeds `MAX_ERROR_RECOVERY_ATTEMPTS`, and otherwise runs one of three
escalation levels.  Level 2 and level 3 end by calling
`configure_nordic_for_sateliot` (an external AT-command sequence, outcome
`configure_err`); level 3 first calls `initialize_sateliot_config`, which
always returns 0 but *overwrites the whole recovery struct* with
`init_recovery_state` (lines 355-358) - that side effect is part of the
returned state here.  The result is the new recovery struct, the C return
value, and which escalation action ran. -/

/-- The corrective action chosen by `attempt_error_recovery`. -/
inductive RecoveryAction
  | softModemReset
  | hardModemReset
  | fullConfigReset
  | cappedFailure
deriving DecidableEq, Repr

def attempt_error_recovery (r : ErrorRecoveryState) (now : Int)
    (configure_err : Int) : ErrorRecoveryState × Int × RecoveryAction :=
  let r1 : ErrorRecoveryState :=
    { r with recovery_attempts := r.recovery_attempts + 1
             last_recovery_time := now }
  if r1.recovery_attempts > MAX_ERROR_RECOVERY_ATTEMPTS then
    ({ r1 with recovery_attempts := 0 }, -EFAULT, RecoveryAction.cappedFailure)
  else if r1.recovery_attempts = 1 then
    (r1, 0, RecoveryAction.softModemReset)
  else if r1.recovery_attempts = 2 then
    (r1, configure_err, RecoveryAction.hardModemReset)
  else
    (init_recovery_state, configure_err, RecoveryAction.fullConfigReset)

/-- Effect of `lte_handler` on the recovery struct when a
`LTE_LC_EVT_NW_REG_STATUS` event reports registered (lines 560-568):
`config.recovery.recovery_attempts = 0`. -/
def lte_handler_registered (r : ErrorRecoveryState) : ErrorRecoveryState :=
  { r with recovery_attempts := 0 }

/-! ## update_sateliot_tles (lines 241-285) -/

def update_sateliot_tles (tle : TleUpdateConfig) (sats : SatValidity)
    (current_time : Int) : TleUpdateConfig × Int :=
  let hours_since_update : Int :=
    Int.tdiv (current_time - tle.last_update_time) (60 * 60 * 1000)
  if hours_since_update < tle.update_interval_hours ∧ tle.update_needed = false
  then
    (tle, 0)
  else
    let any_invalid : Bool := !sats.s0 || !sats.s1 || !sats.s2 || !sats.s3
    let cf : Int :=
      if any_invalid then tle.consecutive_failures + 1 else 0
    let interval : Int :=
      if cf > 3 then TLE_UPDATE_INTERVAL_HOURS * 2 else TLE_UPDATE_INTERVAL_HOURS
    ({ last_update_time := current_time
       update_interval_hours := interval
       update_needed := false
       consecutive_failures := cf }, 0)

/-- The ephemeris-staleness condition the orchestrator checks in `STATE_IDLE`
(lines 746-748). -/
def tle_refresh_due (tle : TleUpdateConfig) (now : Int) : Bool :=
  tle.update_needed ||
    decide ((now - tle.last_update_time) >
      tle.update_interval_hours * 60 * 60 * 1000)

/-! ## calculate_sateliot_satellite_pass (lines 442-505)

Returns the C status code together with the pass written through the out
pointer (`none` when the function returns before writing).  The null-pointer
check of line 443 has no counterpart: the embedding has no null pointers.
`rand()` values are the inputs `rand_dur`, `rand_elev`, `rand_sat`. -/

/-- `lat_factor` (line 464): `1.0 + (fabs(ground_lat) / 90.0) * 0.5`. -/
def sateliot_lat_factor (ground_lat : ℚ) : ℚ :=
  1 + (|ground_lat| / 90) * (1 / 2)

/-- `next_pass_start` (lines 468-484): the next bi-modal daily window. -/
def sateliot_next_pass_start (current_time : Int) : Int :=
  let time_since_midnight : Int := Int.tmod current_time (24 * 60 * 60 * 1000)
  let morning_pass_begin : Int := 10 * 60 * 60 * 1000
  let evening_pass_begin : Int := 21 * 60 * 60 * 1000
  if time_since_midnight < morning_pass_begin then
    current_time + (morning_pass_begin - time_since_midnight)
  else if time_since_midnight < evening_pass_begin then
    current_time + (evening_pass_begin - time_since_midnight)
  else
    current_time + ((24 * 60 * 60 * 1000) - time_since_midnight) +
      morning_pass_begin

/-- `pass_duration` before the latitude factor (lines 487-488):
`MIN + rand() % (MAX - MIN)`. -/
def sateliot_base_duration (rand_dur : Nat) : Int :=
  MIN_SATELLITE_PASS_DURATION_MS +
    ((rand_dur %
      (MAX_SATELLITE_PASS_DURATION_MS -
        MIN_SATELLITE_PASS_DURATION_MS).toNat : Nat) : Int)

/-- `pass_duration` after line 491: `(int64_t)(pass_duration * lat_factor)`.
The product is nonnegative, so the C truncation toward zero is `Int.floor`. -/
def sateliot_pass_duration (ground_lat : ℚ) (rand_dur : Nat) : Int :=
  ⌊(sateliot_base_duration rand_dur : ℚ) * sateliot_lat_factor ground_lat⌋

def calculate_sateliot_satellite_pass (gps_coordinates_valid : Bool)
    (ground_lat : ℚ) (current_time : Int)
    (rand_dur rand_elev rand_sat : Nat) : Int × Option SatellitePass :=
  if gps_coordinates_valid = false then
    (-ENODATA, none)
  else
    (0, some
      { start_time := sateliot_next_pass_start current_time
        end_time := sateliot_next_pass_start current_time +
          sateliot_pass_duration ground_lat rand_dur
        max_elevation := 30 + ((rand_elev % 56 : Nat) : Int)
        satellite_id := ((rand_sat % 4 : Nat) : Int)
        is_predicted := true })

/-! ## format_telemetry_data (lines 602-654)

The status code is paired with a flag recording whether `snprintf` was
reached (i.e. whether anything could have been written into the buffer).
`snprintf_ret` is the external formatting outcome. -/

def format_telemetry_data (buffer_size : Nat) (snprintf_ret : Int) :
    Int × Bool :=
  if buffer_size = 0 then
    (-EINVAL, false)
  else if validate_buffer_safety buffer_size MIN_BUFFER_SIZE_TELEMETRY = false
  then
    (-ENOMEM, false)
  else if buffer_size < 120 + TELEMETRY_SAFETY_MARGIN then
    (-ENOMEM, false)
  else if snprintf_ret < 0 then
    (-EFAULT, true)
  else if snprintf_ret ≥ (buffer_size : Int) then
    (-ENOMEM, true)
  else if snprintf_ret < 50 then
    (-EFAULT, true)
  else
    (0, true)

/-! ## robust_data_send (lines 656-692)

The outcome of each socket attempt is external input: `outcomes i` says what
attempt `i` did.  The function returns the trace of blocking operations it
performed together with its C return value.  Recursion is on the remaining
retry budget (`max_retries = 3`). -/

/-- Outcome of one `robust_data_send` attempt. -/
inductive SendAttempt
  | sockFail
  | sendFail
  | sendOk
deriving DecidableEq, Repr

/-- One blocking or external operation performed by a loop iteration.
`sleepMs` is a `k_sleep`; `semWaitMs` is a `k_sem_take` with the given
timeout, so the value carried is the worst-case blocking time in ms. -/
inductive ExtAction
  | wdtFeed
  | sleepMs (ms : Int)
  | semWaitMs (timeout_ms : Int)
  | lteConnect
  | lteOffline
  | sendDatagram
  | atCommand
deriving DecidableEq, Repr

def robust_send_loop (outcomes : Nat → SendAttempt) :
    Nat → Nat → List ExtAction × Int
  | 0, _ => ([], -EIO_code)
  | n + 1, i =>
    match outcomes i with
    | SendAttempt.sendOk => ([ExtAction.sendDatagram], 0)
    | SendAttempt.sockFail =>
      let r := robust_send_loop outcomes n (i + 1)
      (ExtAction.sleepMs 10000 :: r.1, r.2)
    | SendAttempt.sendFail =>
      let r := robust_send_loop outcomes n (i + 1)
      (ExtAction.sendDatagram :: ExtAction.sleepMs 15000 :: r.1, r.2)

def robust_data_send (outcomes : Nat → SendAttempt) : List ExtAction × Int :=
  robust_send_loop outcomes 3 0

/-! ## The orchestrator (main, lines 698-898) -/

/-- The global variables the main loop reads and writes: `current_state`,
`current_attachment_step`, `config.recovery`, `config.tle_config`, the
satellite validity flags, `config.gps_coordinates_valid` and
`config.device_lat`. -/
structure Sys where
  state : AppState
  attachment : AttachmentStep
  recov : ErrorRecoveryState
  tle : TleUpdateConfig
  sats : SatValidity
  gps_valid : Bool
  device_lat : ℚ
deriving DecidableEq, Repr

/-- External inputs one loop iteration consumes: the clock, the two one-shot
signals, AT-command and libc outcomes, and the `rand()` stream. -/
structure Env where
  now : Int
  gps_fix_signal : Bool
  gps_lat : ℚ
  lte_connected_signal : Bool
  configure_nordic_err : Int
  rand_dur : Nat
  rand_elev : Nat
  rand_sat : Nat
  snprintf_ret : Int
  send_outcomes : Nat → SendAttempt

/-- `set_state` (lines 169-178): on an actual change it records the source
state as `last_good_state` unless the source is `STATE_ERROR` or
`STATE_RECOVERY`, then installs the new state. -/
def set_state (s : Sys) (new_state : AppState) : Sys :=
  if new_state ≠ s.state then
    { s with
      state := new_state
      recov :=
        if s.state ≠ AppState.error ∧ s.state ≠ AppState.recovery then
          { s.recov with last_good_state := s.state }
        else s.recov }
  else s

/-- The `switch (current_state)` body of the main loop (lines 743-891):
one state handler, returning the updated globals and the trace of blocking
and external operations the handler performed. -/
def loopStateStep (e : Env) (s : Sys) : Sys × List ExtAction :=
  match s.state with
  | AppState.idle =>
    if tle_refresh_due s.tle e.now then
      (set_state s AppState.tleUpdate, [])
    else
      match (calculate_sateliot_satellite_pass s.gps_valid s.device_lat e.now
          e.rand_dur e.rand_elev e.rand_sat).2 with
      | some p =>
        let sleep_ms : Int := p.start_time - e.now
        let acts : List ExtAction :=
          if sleep_ms > 0 then
            [ExtAction.sleepMs (min sleep_ms (30 * 60 * 1000))]
          else []
        (set_state s AppState.gettingGpsFix, acts)
      | none =>
        -- gps_valid is false here (line 763): wait 30 s
        (set_state s AppState.gettingGpsFix, [ExtAction.sleepMs 30000])
  | AppState.tleUpdate =>
    let upd := update_sateliot_tles s.tle s.sats e.now
    let tle2 : TleUpdateConfig :=
      if upd.2 ≠ 0 then
        { upd.1 with consecutive_failures := upd.1.consecutive_failures + 1 }
      else upd.1
    (set_state { s with tle := tle2 } AppState.gettingGpsFix, [])
  | AppState.gettingGpsFix =>
    let acts : List ExtAction := [ExtAction.semWaitMs 180000]
    if e.gps_fix_signal then
      -- the GNSS handler stored the fix before giving the semaphore
      (set_state { s with gps_valid := true, device_lat := e.gps_lat }
        AppState.attachStep1, acts)
    else if s.gps_valid then
      (set_state s AppState.attachStep1, acts)
    else
      (set_state s AppState.idle, acts)
  | AppState.attachStep1 =>
    let s1 : Sys := { s with attachment := AttachmentStep.step1 }
    if e.configure_nordic_err ≠ 0 then
      (set_state s1 AppState.error, [ExtAction.atCommand])
    else
      let acts : List ExtAction :=
        [ExtAction.atCommand, ExtAction.lteConnect, ExtAction.semWaitMs 300000]
      if e.lte_connected_signal = false then
        (set_state { s1 with attachment := AttachmentStep.step2 }
          AppState.attachStep2, acts)
      else
        (set_state
          { s1 with attachment := AttachmentStep.complete
                    recov := lte_handler_registered s1.recov }
          AppState.sendingData, acts)
  | AppState.attachStep2 =>
    let s1 : Sys := { s with attachment := AttachmentStep.step2 }
    let acts : List ExtAction :=
      [ExtAction.sleepMs 30000, ExtAction.lteConnect, ExtAction.semWaitMs 900000]
    if e.lte_connected_signal = false then
      (set_state { s1 with attachment := AttachmentStep.step1 }
        AppState.attachStep1, acts ++ [ExtAction.lteOffline])
    else
      (set_state
        { s1 with attachment := AttachmentStep.complete
                  recov := lte_handler_registered s1.recov }
        AppState.sendingData, acts)
  | AppState.sendingData =>
    let fmt := format_telemetry_data PAYLOAD_BUFFER_SIZE e.snprintf_ret
    let sendActs : List ExtAction :=
      if fmt.1 = 0 then (robust_data_send e.send_outcomes).1 else []
    (set_state s AppState.idle, sendActs ++ [ExtAction.lteOffline])
  | AppState.recovery =>
    let r := attempt_error_recovery s.recov e.now e.configure_nordic_err
    let recovActs : List ExtAction :=
      match r.2.2 with
      | RecoveryAction.softModemReset =>
        [ExtAction.lteOffline, ExtAction.sleepMs 5000]
      | RecoveryAction.hardModemReset =>
        [ExtAction.atCommand, ExtAction.sleepMs 10000, ExtAction.atCommand]
      | RecoveryAction.fullConfigReset => [ExtAction.atCommand]
      | RecoveryAction.cappedFailure => []
    let s2 : Sys :=
      match r.2.2 with
      | RecoveryAction.fullConfigReset =>
        -- attempt 3 re-runs initialize_sateliot_config, which resets the
        -- recovery struct, the TLE bookkeeping, the satellite validity
        -- flags and the GPS coordinates (lines 338-377); line 229 also
        -- resets the attachment step.
        { s with recov := r.1
                 attachment := AttachmentStep.step1
                 tle := init_tle_config
                 sats := init_sats
                 gps_valid := false
                 device_lat := 0 }
      | _ => { s with recov := r.1 }
    if r.2.1 = 0 then
      (set_state s2 s2.recov.last_good_state, recovActs)
    else if r.2.1 = -EFAULT then
      (set_state s2 AppState.idle, recovActs)
    else
      (set_state s2 AppState.idle, recovActs ++ [ExtAction.sleepMs 120000])
  | AppState.error =>
    (set_state s AppState.recovery, [])
  | AppState.init =>
    -- falls into the default branch (lines 887-890)
    (set_state s AppState.idle, [])

/-- One full pass of the `while (1)` loop (lines 740-895): `wdt_feed` first,
then the state handler, then the 500 ms tail sleep. -/
def loopStep (e : Env) (s : Sys) : Sys × List ExtAction :=
  let r := loopStateStep e s
  (r.1, ExtAction.wdtFeed :: r.2 ++ [ExtAction.sleepMs 500])

/-- Number of `wdt_feed` calls in a trace. -/
def feedCount : List ExtAction → Nat
  | [] => 0
  | ExtAction.wdtFeed :: l => feedCount l + 1
  | _ :: l => feedCount l

/-- Worst-case blocking time of one action, in milliseconds. -/
def actionBlockMs : ExtAction → Int
  | ExtAction.sleepMs ms => ms
  | ExtAction.semWaitMs t => t
  | _ => 0

/-- Worst-case blocking time of a whole trace, in milliseconds. -/
def traceBlockMs : List ExtAction → Int
  | [] => 0
  | a :: l => actionBlockMs a + traceBlockMs l

/-- The globals right after `initialize_sateliot_config` in `main`
(line 705), with `current_state` still `STATE_INIT`. -/
def base_sys : Sys :=
  { state := AppState.init
    attachment := AttachmentStep.step1
    recov := init_recovery_state
    tle := init_tle_config
    sats := init_sats
    gps_valid := false
    device_lat := 0 }

/-- System state at the top of the first loop iteration: main has run
`initialize_sateliot_config` and then `set_state(STATE_IDLE)` from
`STATE_INIT` (line 734), which records `STATE_INIT` as last good state. -/
def initial_sys : Sys :=
  set_state base_sys AppState.idle

/-- A concrete environment used to evaluate single loop iterations: both
signals time out, all external calls succeed. -/
def env0 : Env :=
  { now := 0
    gps_fix_signal := false
    gps_lat := 0
    lte_connected_signal := false
    configure_nordic_err := 0
    rand_dur := 0
    rand_elev := 0
    rand_sat := 0
    snprintf_ret := 100
    send_outcomes := fun _ => SendAttempt.sendOk }

/-! ## General lemmas about the embedded definitions -/

theorem calc_valid_shape (lat : ℚ) (t : Int) (r1 r2 r3 : Nat) :
    calculate_sateliot_satellite_pass true lat t r1 r2 r3 =
      (0, some
        { start_time := sateliot_next_pass_start t
          end_time := sateliot_next_pass_start t + sateliot_pass_duration lat r1
          max_elevation := 30 + ((r2 % 56 : Nat) : Int)
          satellite_id := ((r3 % 4 : Nat) : Int)
          is_predicted := true }) := rfl

theorem base_duration_bounds (r1 : Nat) :
    30000 ≤ sateliot_base_duration r1 ∧ sateliot_base_duration r1 ≤ 479999 := by
  unfold sateliot_base_duration MIN_SATELLITE_PASS_DURATION_MS
    MAX_SATELLITE_PASS_DURATION_MS
  have hmod : (r1 % 450000 : Nat) < 450000 := Nat.mod_lt _ (by norm_num)
  norm_num
  omega

theorem lat_factor_bounds (lat : ℚ) (h : |lat| ≤ 90) :
    1 ≤ sateliot_lat_factor lat ∧ sateliot_lat_factor lat ≤ 3 / 2 := by
  unfold sateliot_lat_factor
  have h0 : (0 : ℚ) ≤ |lat| := abs_nonneg lat
  constructor <;> nlinarith

theorem pass_duration_bounds (lat : ℚ) (r1 : Nat) (h : |lat| ≤ 90) :
    sateliot_base_duration r1 ≤ sateliot_pass_duration lat r1 ∧
    sateliot_pass_duration lat r1 ≤ 719998 := by
  obtain ⟨hb1, hb2⟩ := base_duration_bounds r1
  obtain ⟨hf1, hf2⟩ := lat_factor_bounds lat h
  set b := sateliot_base_duration r1 with hb
  set f := sateliot_lat_factor lat with hf
  have hbq0 : (0 : ℚ) ≤ (b : ℚ) := by exact_mod_cast le_trans (by norm_num) hb1
  have hbq : (b : ℚ) ≤ 479999 := by exact_mod_cast hb2
  unfold sateliot_pass_duration
  rw [← hb, ← hf]
  constructor
  · apply Int.le_floor.mpr
    nlinarith
  · have hlt : (b : ℚ) * f < ((719999 : ℤ) : ℚ) := by push_cast; nlinarith
    have h2 := Int.floor_lt.mpr hlt
    omega

theorem feedCount_append (l1 l2 : List ExtAction) :
    feedCount (l1 ++ l2) = feedCount l1 + feedCount l2 := by
  induction l1 with
  | nil => simp [feedCount]
  | cons a l ih => cases a <;> (simp [feedCount, ih]; try omega)

theorem traceBlockMs_append (l1 l2 : List ExtAction) :
    traceBlockMs (l1 ++ l2) = traceBlockMs l1 + traceBlockMs l2 := by
  induction l1 with
  | nil => simp [traceBlockMs]
  | cons a l ih =>
    simp [traceBlockMs, ih]
    omega

theorem robust_send_loop_bounds (o : Nat → SendAttempt) :
    ∀ (n i : Nat), feedCount (robust_send_loop o n i).1 = 0 ∧
      traceBlockMs (robust_send_loop o n i).1 ≤ 15000 * n := by
  intro n
  induction n with
  | zero =>
    intro i
    simp [robust_send_loop, feedCount, traceBlockMs]
  | succ n ih =>
    intro i
    obtain ⟨ih1, ih2⟩ := ih (i + 1)
    unfold robust_send_loop
    rcases h : o i <;>
      (simp [h, feedCount, traceBlockMs, actionBlockMs, ih1]; omega)

theorem loopStateStep_bounds (e : Env) (s : Sys) :
    feedCount (loopStateStep e s).2 = 0 ∧
    traceBlockMs (loopStateStep e s).2 ≤ 1800000 := by
  have hr := robust_send_loop_bounds e.send_outcomes 3 0
  obtain ⟨st, att, rc, tle, sats, gv, lat⟩ := s
  cases st <;> unfold loopStateStep <;> dsimp only <;> repeat' split
  all_goals
    simp [feedCount, traceBlockMs, actionBlockMs, feedCount_append,
      traceBlockMs_append, robust_data_send, hr.1]
  all_goals omega

theorem set_state_lastGood_preserved (s : Sys) (n : AppState)
    (g1 : s.recov.last_good_state ≠ AppState.error)
    (g2 : s.recov.last_good_state ≠ AppState.recovery) :
    (set_state s n).recov.last_good_state ≠ AppState.error ∧
    (set_state s n).recov.last_good_state ≠ AppState.recovery := by
  unfold set_state
  split
  · split
    · next h => simpa using ⟨h.1, h.2⟩
    · next h => exact ⟨g1, g2⟩
  · exact ⟨g1, g2⟩

theorem attempt_recovery_lastGood (r : ErrorRecoveryState) (now c : Int) :
    (attempt_error_recovery r now c).1.last_good_state = r.last_good_state ∨
    (attempt_error_recovery r now c).1.last_good_state = AppState.idle := by
  unfold attempt_error_recovery
  dsimp only
  split
  · exact Or.inl rfl
  · split
    · exact Or.inl rfl
    · split
      · exact Or.inl rfl
      · exact Or.inr rfl

theorem loopStep_lastGood_preserved (e : Env) (s : Sys)
    (g1 : s.recov.last_good_state ≠ AppState.error)
    (g2 : s.recov.last_good_state ≠ AppState.recovery) :
    (loopStep e s).1.recov.last_good_state ≠ AppState.error ∧
    (loopStep e s).1.recov.last_good_state ≠ AppState.recovery := by
  obtain ⟨st, att, rc, tle, sats, gv, lat⟩ := s
  simp only at g1 g2
  cases st
  case recovery =>
    have h := attempt_recovery_lastGood rc e.now e.configure_nordic_err
    have hlg1 : (attempt_error_recovery rc e.now
        e.configure_nordic_err).1.last_good_state ≠ AppState.error := by
      rcases h with h | h <;> rw [h]
      · exact g1
      · simp
    have hlg2 : (attempt_error_recovery rc e.now
        e.configure_nordic_err).1.last_good_state ≠ AppState.recovery := by
      rcases h with h | h <;> rw [h]
      · exact g2
      · simp
    unfold loopStep loopStateStep
    dsimp only
    cases hact : (attempt_error_recovery rc e.now e.configure_nordic_err).2.2
      <;> simp only [hact] <;> repeat' split
    all_goals exact set_state_lastGood_preserved _ _ hlg1 hlg2
  all_goals
    unfold loopStep loopStateStep
    dsimp only
    repeat' split
  all_goals exact set_state_lastGood_preserved _ _ g1 g2

theorem update_tles_ret_zero (tle : TleUpdateConfig) (sats : SatValidity)
    (now : Int) : (update_sateliot_tles tle sats now).2 = 0 := by
  simp only [update_sateliot_tles]
  split
  · rfl
  · rfl

/-! ## Claim theorems -/

/-- C1: the escalation ladder is 1 → 2 → 3 as claimed, and a registration
event resets the counter; but the claim that a fourth consecutive failure
returns the capped result is false on the code: escalation level 3 re-runs
`initialize_sateliot_config`, which zeroes `recovery_attempts` (line 355),
so after the third attempt the counter is 0 again and a fourth consecutive
failure runs level 1 (soft reset), never `cappedFailure`. -/
theorem C1_recovery_escalation_bug :
    (attempt_error_recovery init_recovery_state 0 0).2.2 =
      RecoveryAction.softModemReset ∧
    (attempt_error_recovery init_recovery_state 0 0).1.recovery_attempts = 1 ∧
    (attempt_error_recovery
      (attempt_error_recovery init_recovery_state 0 0).1 0 0).2.2 =
      RecoveryAction.hardModemReset ∧
    (attempt_error_recovery
      (attempt_error_recovery init_recovery_state 0 0).1 0 0).1.recovery_attempts
      = 2 ∧
    (attempt_error_recovery (attempt_error_recovery
      (attempt_error_recovery init_recovery_state 0 0).1 0 0).1 0 0).2.2 =
      RecoveryAction.fullConfigReset ∧
    (attempt_error_recovery (attempt_error_recovery
      (attempt_error_recovery init_recovery_state 0 0).1 0 0).1 0
        0).1.recovery_attempts = 0 ∧
    (attempt_error_recovery (attempt_error_recovery (attempt_error_recovery
      (attempt_error_recovery init_recovery_state 0 0).1 0 0).1 0 0).1 0
        0).2.2 = RecoveryAction.softModemReset ∧
    (attempt_error_recovery (attempt_error_recovery (attempt_error_recovery
      (attempt_error_recovery init_recovery_state 0 0).1 0 0).1 0 0).1 0
        0).2.2 ≠ RecoveryAction.cappedFailure ∧
    (attempt_error_recovery (attempt_error_recovery (attempt_error_recovery
      (attempt_error_recovery init_recovery_state 0 0).1 0 0).1 0 0).1 0
        0).1.recovery_attempts = 1 ∧
    (∀ r : ErrorRecoveryState, (lte_handler_registered r).recovery_attempts = 0)
    := by
  refine ⟨by decide, by decide, by decide, by decide, by decide, by decide,
    by decide, by decide, by decide, fun r => rfl⟩

/-- C2 counterexample: at latitude 90 with the maximal random draw, the
broadened pass duration is 719998 ms, which exceeds
`MAX_SATELLITE_PASS_DURATION_MS` (480000 ms), so the claimed invariant
"`end_time - start_time` within [min, max] after the latitude factor is
applied" is false. -/
theorem C2_counterexample_duration_exceeds_max :
    calculate_sateliot_satellite_pass true 90 0 449999 0 0 =
      (0, some
        { start_time := 36000000, end_time := 36719998, max_elevation := 30,
          satellite_id := 0, is_predicted := true }) ∧
    ((36719998 - 36000000 : Int) > MAX_SATELLITE_PASS_DURATION_MS) := by
  constructor
  · unfold calculate_sateliot_satellite_pass sateliot_next_pass_start
      sateliot_pass_duration sateliot_base_duration sateliot_lat_factor
      MIN_SATELLITE_PASS_DURATION_MS MAX_SATELLITE_PASS_DURATION_MS
    norm_num [Int.tmod]
  · decide

/-- C2 amended: every successfully returned pass has `end_time > start_time`
and its duration lies in [`MIN_SATELLITE_PASS_DURATION_MS`, 719998 ms]; the
[min, max] bound holds for the base duration before the latitude factor is
applied, but after broadening (factor up to 1.5 for |lat| ≤ 90 degrees) the
duration may exceed `MAX_SATELLITE_PASS_DURATION_MS`, up to
⌊1.5 · (max − 1)⌋ = 719998 ms. -/
theorem C2_pass_duration_amended (lat : ℚ) (t : Int) (r1 r2 r3 : Nat)
    (h : |lat| ≤ 90) :
    ∃ p : SatellitePass,
      calculate_sateliot_satellite_pass true lat t r1 r2 r3 = (0, some p) ∧
      p.start_time < p.end_time ∧
      MIN_SATELLITE_PASS_DURATION_MS ≤ sateliot_base_duration r1 ∧
      sateliot_base_duration r1 < MAX_SATELLITE_PASS_DURATION_MS ∧
      MIN_SATELLITE_PASS_DURATION_MS ≤ p.end_time - p.start_time ∧
      p.end_time - p.start_time ≤ 719998 := by
  obtain ⟨hd1, hd2⟩ := pass_duration_bounds lat r1 h
  obtain ⟨hb1, hb2⟩ := base_duration_bounds r1
  refine ⟨_, calc_valid_shape lat t r1 r2 r3, ?_, ?_, ?_, ?_, ?_⟩ <;>
    simp only [MIN_SATELLITE_PASS_DURATION_MS, MAX_SATELLITE_PASS_DURATION_MS]
      <;> omega

/-- Witness for C2_pass_duration_amended at latitude 45. -/
theorem C2_pass_duration_amended_witness :
    |(45 : ℚ)| ≤ 90 ∧
    ∃ p : SatellitePass,
      calculate_sateliot_satellite_pass true 45 0 0 0 0 = (0, some p) ∧
      p.start_time < p.end_time ∧
      MIN_SATELLITE_PASS_DURATION_MS ≤ sateliot_base_duration 0 ∧
      sateliot_base_duration 0 < MAX_SATELLITE_PASS_DURATION_MS ∧
      MIN_SATELLITE_PASS_DURATION_MS ≤ p.end_time - p.start_time ∧
      p.end_time - p.start_time ≤ 719998 :=
  ⟨by norm_num, C2_pass_duration_amended 45 0 0 0 0 (by norm_num)⟩

/-- C3: the watchdog feed is invoked exactly once per loop iteration and
every wait is time-bounded (at most 30 min of blocking per iteration), as
claimed; but the conclusion that the watchdog is therefore serviced well
under its own reset window is false on the code: `setup_watchdog`
configures `window.max = 60000` ms, while an iteration in
`STATE_ATTEMPTING_CONNECTION_STEP2` blocks for up to 930500 ms (30 s
settle sleep + 15 min semaphore timeout + 500 ms tail) between feeds, so
the watchdog fires mid-wait. -/
theorem C3_watchdog_cadence_bug :
    (∀ (e : Env) (s : Sys), feedCount (loopStep e s).2 = 1) ∧
    (∀ (e : Env) (s : Sys), traceBlockMs (loopStep e s).2 ≤ 1800500) ∧
    traceBlockMs (loopStep env0
      { base_sys with state := AppState.attachStep2 }).2 = 930500 ∧
    watchdogWindowMaxMs = 60000 ∧
    traceBlockMs (loopStep env0
      { base_sys with state := AppState.attachStep2 }).2 >
      watchdogWindowMaxMs := by
  refine ⟨?_, ?_, by decide, by decide, by decide⟩
  · intro e s
    have h := (loopStateStep_bounds e s).1
    unfold loopStep
    dsimp only
    simp [feedCount, feedCount_append, h]
  · intro e s
    have h := (loopStateStep_bounds e s).2
    unfold loopStep
    dsimp only
    simp [traceBlockMs, actionBlockMs, traceBlockMs_append]
    omega

/-- C9: `set_state` records the source state into `last_good_state` on
every actual transition whose source is neither `Error` nor `Recovering`,
leaves the recovery struct untouched on transitions out of `Error` or
`Recovering`, and consequently `last_good_state` never holds `Error` or
`Recovering` — the property is preserved by every loop iteration and holds
at the initial state. -/
theorem C9_last_good_state_invariant :
    (∀ (s : Sys) (n : AppState), n ≠ s.state →
        s.state ≠ AppState.error → s.state ≠ AppState.recovery →
        (set_state s n).recov.last_good_state = s.state) ∧
    (∀ (s : Sys) (n : AppState),
        s.state = AppState.error ∨ s.state = AppState.recovery →
        (set_state s n).recov = s.recov) ∧
    (∀ (e : Env) (s : Sys),
        s.recov.last_good_state ≠ AppState.error →
        s.recov.last_good_state ≠ AppState.recovery →
        (loopStep e s).1.recov.last_good_state ≠ AppState.error ∧
        (loopStep e s).1.recov.last_good_state ≠ AppState.recovery) ∧
    initial_sys.recov.last_good_state ≠ AppState.error ∧
    initial_sys.recov.last_good_state ≠ AppState.recovery := by
  refine ⟨?_, ?_, loopStep_lastGood_preserved, by decide, by decide⟩
  · intro s n h1 h2 h3
    unfold set_state
    rw [if_pos h1, if_pos ⟨h2, h3⟩]
  · intro s n h
    unfold set_state
    split
    · dsimp only
      rw [if_neg]
      rintro ⟨k1, k2⟩
      rcases h with h | h
      · exact k1 h
      · exact k2 h
    · rfl

/-- Witness for C9_last_good_state_invariant: a concrete good transition, a
concrete transition out of `Error`, and one loop iteration from the initial
state. -/
theorem C9_last_good_state_invariant_witness :
    (set_state { base_sys with state := AppState.idle }
      AppState.gettingGpsFix).recov.last_good_state = AppState.idle ∧
    (set_state { base_sys with state := AppState.error }
      AppState.recovery).recov = init_recovery_state ∧
    ((loopStep env0 initial_sys).1.recov.last_good_state ≠ AppState.error ∧
     (loopStep env0 initial_sys).1.recov.last_good_state ≠
       AppState.recovery) :=
  ⟨C9_last_good_state_invariant.1 _ _ (by decide) (by decide) (by decide),
   C9_last_good_state_invariant.2.1 _ AppState.recovery (Or.inl rfl),
   C9_last_good_state_invariant.2.2.1 env0 initial_sys (by decide)
     (by decide)⟩

/-- C4 counterexample: a refresh cycle that observes an invalid TLE slot is
counted as a failure (`consecutive_failures` goes 0 → 1), yet it still
clears `update_needed`; this contradicts the claim that the force flag is
cleared only on successful cycles, not on failed ones. -/
theorem C4_counterexample_flag_cleared_on_failed_cycle :
    (update_sateliot_tles
      { last_update_time := 0, update_interval_hours := 24,
        update_needed := true, consecutive_failures := 0 }
      init_sats 0).1.consecutive_failures = 1 ∧
    (update_sateliot_tles
      { last_update_time := 0, update_interval_hours := 24,
        update_needed := true, consecutive_failures := 0 }
      init_sats 0).1.update_needed = false := by
  decide

/-- C4 amended: with interval 24 h a staleness query at T+25 h reports
stale; a refresh that brings `consecutive_failures` above 3 doubles the
interval; a clean refresh zeroes the failures and restores the nominal
interval; and `update_needed` is cleared exactly once per *executed*
refresh cycle — including cycles that count a failure because of invalid
TLE slots — while a skipped (not-yet-due) call leaves the config
untouched. -/
theorem C4_ephemeris_freshness_amended :
    (∀ (tle : TleUpdateConfig) (T : Int),
        tle.last_update_time = T → tle.update_interval_hours = 24 →
        tle_refresh_due tle (T + 25 * 60 * 60 * 1000) = true) ∧
    (∀ (tle : TleUpdateConfig) (sats : SatValidity) (now : Int),
        ¬(Int.tdiv (now - tle.last_update_time) (60 * 60 * 1000) <
            tle.update_interval_hours ∧ tle.update_needed = false) →
        (!sats.s0 || !sats.s1 || !sats.s2 || !sats.s3) = true →
        tle.consecutive_failures + 1 > 3 →
        (update_sateliot_tles tle sats now).1.update_interval_hours =
          2 * TLE_UPDATE_INTERVAL_HOURS) ∧
    (∀ (tle : TleUpdateConfig) (sats : SatValidity) (now : Int),
        ¬(Int.tdiv (now - tle.last_update_time) (60 * 60 * 1000) <
            tle.update_interval_hours ∧ tle.update_needed = false) →
        (!sats.s0 || !sats.s1 || !sats.s2 || !sats.s3) = false →
        (update_sateliot_tles tle sats now).1.consecutive_failures = 0 ∧
        (update_sateliot_tles tle sats now).1.update_interval_hours =
          TLE_UPDATE_INTERVAL_HOURS) ∧
    (∀ (tle : TleUpdateConfig) (sats : SatValidity) (now : Int),
        ¬(Int.tdiv (now - tle.last_update_time) (60 * 60 * 1000) <
            tle.update_interval_hours ∧ tle.update_needed = false) →
        (update_sateliot_tles tle sats now).1.update_needed = false) ∧
    (∀ (tle : TleUpdateConfig) (sats : SatValidity) (now : Int),
        (Int.tdiv (now - tle.last_update_time) (60 * 60 * 1000) <
            tle.update_interval_hours ∧ tle.update_needed = false) →
        (update_sateliot_tles tle sats now).1 = tle) := by
  refine ⟨?_, ?_, ?_, ?_, ?_⟩
  · intro tle T h1 h2
    simp only [tle_refresh_due, h1, h2, Bool.or_eq_true, decide_eq_true_eq]
    right
    omega
  · intro tle sats now hgate hinv hcf
    unfold update_sateliot_tles
    rw [if_neg hgate]
    simp only [hinv, if_pos, if_true]
    rw [if_pos hcf]
    simp [TLE_UPDATE_INTERVAL_HOURS]
  · intro tle sats now hgate hval
    unfold update_sateliot_tles
    rw [if_neg hgate]
    simp [hval]
  · intro tle sats now hgate
    unfold update_sateliot_tles
    rw [if_neg hgate]
  · intro tle sats now hgate
    unfold update_sateliot_tles
    rw [if_pos hgate]

/-- Witness for C4_ephemeris_freshness_amended: each quantified part applied
at concrete inputs with its hypotheses discharged. -/
theorem C4_ephemeris_freshness_amended_witness :
    tle_refresh_due
      { last_update_time := 0, update_interval_hours := 24,
        update_needed := false, consecutive_failures := 0 }
      (0 + 25 * 60 * 60 * 1000) = true ∧
    (update_sateliot_tles
      { last_update_time := 0, update_interval_hours := 24,
        update_needed := true, consecutive_failures := 3 }
      init_sats 0).1.update_interval_hours = 2 * TLE_UPDATE_INTERVAL_HOURS ∧
    (update_sateliot_tles
      { last_update_time := 0, update_interval_hours := 24,
        update_needed := true, consecutive_failures := 5 }
      { s0 := true, s1 := true, s2 := true, s3 := true }
      0).1.consecutive_failures = 0 ∧
    (update_sateliot_tles
      { last_update_time := 0, update_interval_hours := 24,
        update_needed := true, consecutive_failures := 3 }
      init_sats 0).1.update_needed = false ∧
    (update_sateliot_tles
      { last_update_time := 0, update_interval_hours := 24,
        update_needed := false, consecutive_failures := 0 }
      init_sats 0).1 =
      { last_update_time := 0, update_interval_hours := 24,
        update_needed := false, consecutive_failures := 0 } :=
  ⟨C4_ephemeris_freshness_amended.1 _ 0 rfl rfl,
   C4_ephemeris_freshness_amended.2.1 _ init_sats 0 (by decide) (by decide)
     (by decide),
   (C4_ephemeris_freshness_amended.2.2.1 _
     { s0 := true, s1 := true, s2 := true, s3 := true } 0 (by decide)
     (by decide)).1,
   C4_ephemeris_freshness_amended.2.2.2.1 _ init_sats 0 (by decide),
   C4_ephemeris_freshness_amended.2.2.2.2 _ init_sats 0 (by decide)⟩

/-- C6 counterexample: at capacity 0 the encoder returns `-EINVAL` (invalid
parameter), not `-ENOMEM` (buffer too small), so "every capacity below
minimum+margin yields BufferTooSmall" fails at c = 0. -/
theorem C6_counterexample_zero_capacity :
    format_telemetry_data 0 0 = (-EINVAL, false) ∧
    (-EINVAL : Int) ≠ -ENOMEM := by
  decide

/-- C6 amended: for every capacity c with 1 ≤ c < 128+32 the encoder
returns `-ENOMEM` (BufferTooSmall) without reaching `snprintf` (nothing is
written); capacity = minimum+margin−1 = 159 yields `-ENOMEM`; capacity 0 is
rejected earlier with `-EINVAL`, also writing nothing. -/
theorem C6_buffer_too_small_amended :
    (∀ (c : Nat) (ret : Int), 1 ≤ c →
        c < MIN_BUFFER_SIZE_TELEMETRY + TELEMETRY_SAFETY_MARGIN →
        format_telemetry_data c ret = (-ENOMEM, false)) ∧
    (∀ ret : Int,
        format_telemetry_data
          (MIN_BUFFER_SIZE_TELEMETRY + TELEMETRY_SAFETY_MARGIN - 1) ret =
          (-ENOMEM, false)) ∧
    (∀ ret : Int, format_telemetry_data 0 ret = (-EINVAL, false)) := by
  have main : ∀ (c : Nat) (ret : Int), 1 ≤ c → c < 160 →
      format_telemetry_data c ret = (-ENOMEM, false) := by
    intro c ret h1 h2
    have hv : validate_buffer_safety c MIN_BUFFER_SIZE_TELEMETRY = false := by
      unfold validate_buffer_safety MIN_BUFFER_SIZE_TELEMETRY
        TELEMETRY_SAFETY_MARGIN
      rw [if_pos (by omega)]
    unfold format_telemetry_data
    rw [if_neg (by omega), hv, if_pos rfl]
  refine ⟨?_, ?_, fun ret => rfl⟩
  · intro c ret h1 h2
    simp only [MIN_BUFFER_SIZE_TELEMETRY, TELEMETRY_SAFETY_MARGIN] at h2
    exact main c ret h1 h2
  · intro ret
    simp only [MIN_BUFFER_SIZE_TELEMETRY, TELEMETRY_SAFETY_MARGIN]
    exact main 159 ret (by norm_num) (by norm_num)

/-- Witness for C6_buffer_too_small_amended at capacity 100. -/
theorem C6_buffer_too_small_amended_witness :
    1 ≤ (100 : Nat) ∧
    (100 : Nat) < MIN_BUFFER_SIZE_TELEMETRY + TELEMETRY_SAFETY_MARGIN ∧
    format_telemetry_data 100 0 = (-ENOMEM, false) :=
  ⟨by decide, by decide,
   C6_buffer_too_small_amended.1 100 0 (by decide) (by decide)⟩

/-- C5: two-phase attach transitions — in `AttachStep1` a registration
timeout (5-minute wait) moves to `AttachStep2` (never to `Error`), an
unexpected early success moves to `SendingData`; in `AttachStep2` the
machine sleeps the 30 s settle delay, connects again and waits with the
15-minute timeout, success moves to `SendingData`, and timeout releases
the link (`lte_lc_offline`) and returns to `AttachStep1`. -/
theorem C5_two_phase_attach (e : Env) (s : Sys) :
    (s.state = AppState.attachStep1 → e.configure_nordic_err = 0 →
      e.lte_connected_signal = false →
        (loopStep e s).1.state = AppState.attachStep2 ∧
        (loopStep e s).1.state ≠ AppState.error ∧
        (loopStep e s).1.attachment = AttachmentStep.step2 ∧
        ExtAction.semWaitMs 300000 ∈ (loopStep e s).2) ∧
    (s.state = AppState.attachStep1 → e.configure_nordic_err = 0 →
      e.lte_connected_signal = true →
        (loopStep e s).1.state = AppState.sendingData) ∧
    (s.state = AppState.attachStep2 → e.lte_connected_signal = true →
        (loopStep e s).1.state = AppState.sendingData) ∧
    (s.state = AppState.attachStep2 → e.lte_connected_signal = false →
        (loopStep e s).1.state = AppState.attachStep1 ∧
        (loopStep e s).1.attachment = AttachmentStep.step1 ∧
        ExtAction.lteOffline ∈ (loopStep e s).2 ∧
        ExtAction.sleepMs 30000 ∈ (loopStep e s).2 ∧
        ExtAction.semWaitMs 900000 ∈ (loopStep e s).2) := by
  obtain ⟨st, att, rc, tle, sats, gv, lat⟩ := s
  refine ⟨?_, ?_, ?_, ?_⟩ <;> intro hst <;> simp only at hst <;> subst hst
  · intro hc hl
    simp [loopStep, loopStateStep, set_state, hc, hl]
  · intro hc hl
    simp [loopStep, loopStateStep, set_state, hc, hl]
  · intro hl
    simp [loopStep, loopStateStep, set_state, hl]
  · intro hl
    simp [loopStep, loopStateStep, set_state, hl]

/-- Witness for C5_two_phase_attach: a concrete iteration in each attach
state under timeout and under success. -/
theorem C5_two_phase_attach_witness :
    (loopStep env0 { base_sys with state := AppState.attachStep1 }).1.state =
      AppState.attachStep2 ∧
    (loopStep { env0 with lte_connected_signal := true }
      { base_sys with state := AppState.attachStep1 }).1.state =
      AppState.sendingData ∧
    (loopStep { env0 with lte_connected_signal := true }
      { base_sys with state := AppState.attachStep2 }).1.state =
      AppState.sendingData ∧
    (loopStep env0 { base_sys with state := AppState.attachStep2 }).1.state =
      AppState.attachStep1 :=
  ⟨((C5_two_phase_attach env0 _).1 rfl rfl rfl).1,
   (C5_two_phase_attach { env0 with lte_connected_signal := true } _).2.1
     rfl rfl rfl,
   (C5_two_phase_attach { env0 with lte_connected_signal := true } _).2.2.1
     rfl rfl,
   ((C5_two_phase_attach env0 _).2.2.2 rfl rfl).1⟩

/-- C7: in `AcquiringFix` the orchestrator waits on the fix semaphore with
a bounded 180 s timeout; on signal success, or on timeout while a
previously valid position exists, it moves to `AttachStep1`; on timeout
with no valid position it moves to `Idle`. -/
theorem C7_acquiring_fix_transitions (e : Env) (s : Sys)
    (hst : s.state = AppState.gettingGpsFix) :
    (e.gps_fix_signal = true → (loopStep e s).1.state = AppState.attachStep1) ∧
    (e.gps_fix_signal = false → s.gps_valid = true →
      (loopStep e s).1.state = AppState.attachStep1) ∧
    (e.gps_fix_signal = false → s.gps_valid = false →
      (loopStep e s).1.state = AppState.idle) ∧
    ExtAction.semWaitMs 180000 ∈ (loopStep e s).2 := by
  obtain ⟨st, att, rc, tle, sats, gv, lat⟩ := s
  simp only at hst
  subst hst
  refine ⟨?_, ?_, ?_, ?_⟩
  · intro hf
    simp [loopStep, loopStateStep, set_state, hf]
  · intro hf hg
    simp only at hg
    subst hg
    simp [loopStep, loopStateStep, set_state, hf]
  · intro hf hg
    simp only at hg
    subst hg
    simp [loopStep, loopStateStep, set_state, hf]
  · by_cases hf : e.gps_fix_signal
    · simp [loopStep, loopStateStep, set_state, hf]
    · by_cases hg : gv <;> simp [loopStep, loopStateStep, set_state, hf, hg]

/-- Witness for C7_acquiring_fix_transitions: concrete iterations in
`STATE_GETTING_GPS_FIX`. -/
theorem C7_acquiring_fix_transitions_witness :
    (loopStep { env0 with gps_fix_signal := true }
      { base_sys with state := AppState.gettingGpsFix }).1.state =
      AppState.attachStep1 ∧
    (loopStep env0
      { base_sys with state := AppState.gettingGpsFix, gps_valid := true
        }).1.state = AppState.attachStep1 ∧
    (loopStep env0
      { base_sys with state := AppState.gettingGpsFix }).1.state =
      AppState.idle :=
  ⟨(C7_acquiring_fix_transitions { env0 with gps_fix_signal := true } _
      rfl).1 rfl,
   (C7_acquiring_fix_transitions env0 _ rfl).2.1 rfl rfl,
   (C7_acquiring_fix_transitions env0 _ rfl).2.2.1 rfl rfl⟩

/-- C10: `update_sateliot_tles` returns 0 on every input, so the
orchestrator's refresh-failure branch in `STATE_TLE_UPDATE` (which would
increment `consecutive_failures` a second time) never fires — the config
after the state handler is exactly the function's output — and any call
that passes the staleness gate (including one observing invalid TLE slots)
stamps `last_update_time` and clears `update_needed`. -/
theorem C10_tle_update_infallible :
    (∀ (tle : TleUpdateConfig) (sats : SatValidity) (now : Int),
        (update_sateliot_tles tle sats now).2 = 0) ∧
    (∀ (e : Env) (s : Sys), s.state = AppState.tleUpdate →
        (loopStep e s).1.tle = (update_sateliot_tles s.tle s.sats e.now).1) ∧
    (∀ (tle : TleUpdateConfig) (sats : SatValidity) (now : Int),
        ¬(Int.tdiv (now - tle.last_update_time) (60 * 60 * 1000) <
            tle.update_interval_hours ∧ tle.update_needed = false) →
        (update_sateliot_tles tle sats now).1.last_update_time = now ∧
        (update_sateliot_tles tle sats now).1.update_needed = false) := by
  refine ⟨update_tles_ret_zero, ?_, ?_⟩
  · intro e s hst
    obtain ⟨st, att, rc, tle, sats, gv, lat⟩ := s
    simp only at hst
    subst hst
    simp [loopStep, loopStateStep, set_state, update_tles_ret_zero]
  · intro tle sats now hgate
    unfold update_sateliot_tles
    rw [if_neg hgate]
    exact ⟨rfl, rfl⟩

/-- Witness for C10_tle_update_infallible: a concrete refresh in
`STATE_TLE_UPDATE` with an invalid TLE slot present. -/
theorem C10_tle_update_infallible_witness :
    (update_sateliot_tles init_tle_config init_sats 0).2 = 0 ∧
    (loopStep env0 { base_sys with state := AppState.tleUpdate }).1.tle =
      (update_sateliot_tles init_tle_config init_sats 0).1 ∧
    (update_sateliot_tles init_tle_config init_sats 0).1.last_update_time
      = 0 ∧
    (update_sateliot_tles init_tle_config init_sats 0).1.update_needed =
      false :=
  ⟨C10_tle_update_infallible.1 init_tle_config init_sats 0,
   C10_tle_update_infallible.2.1 env0
     { base_sys with state := AppState.tleUpdate } rfl,
   (C10_tle_update_infallible.2.2 init_tle_config init_sats 0
     (by decide)).1,
   (C10_tle_update_infallible.2.2 init_tle_config init_sats 0
     (by decide)).2⟩

/-- C8: with an invalid ground position the predictor returns `-ENODATA`,
writes no pass, and its result does not depend on the clock (no time
computation is performed). -/
theorem C8_invalid_position_nodata (lat : ℚ) (t1 t2 : Int) (r1 r2 r3 : Nat) :
    calculate_sateliot_satellite_pass false lat t1 r1 r2 r3 =
      ((-ENODATA : Int), (none : Option SatellitePass)) ∧
    calculate_sateliot_satellite_pass false lat t1 r1 r2 r3 =
      calculate_sateliot_satellite_pass false lat t2 r1 r2 r3 :=
  ⟨rfl, rfl⟩

end NtnFw
